import Mathlib

set_option maxRecDepth 10000

/-!
# Verification of the ESP32 sweeping-radar controller (`src/main.cpp`)

A shallow embedding of the scan-and-detect control loop: distance sampling
with median filtering (`getDistance`), encoder-driven threshold adjustment
(`updateDetectionLimit`), the sweep scheduler (`advanceSweep`), the
detection state machine (`detectStep`), the telemetry handler
(`handleData`), and a step function `loopIter` for one iteration of
`loop`.

Floating-point values of the C++ source (`float` distances in centimetres)
are modelled as rationals `ℚ`; all operations the code performs on them
(comparisons, additions, multiplication by constants) are exact at every
value appearing in the development, so the model is faithful.
-/

namespace Radar

/-! ## Constants (src/main.cpp lines 22-27) -/

def MIN_DETECTION_LIMIT : ℚ := 30
def MAX_DETECTION_LIMIT : ℚ := 400
def RANGE_INCREMENT : ℚ := 5
def SCAN_STEP : ℤ := 5

/-! ## Range sampling (src/main.cpp lines 53-80, `getDistance`) -/

/-- A raw echo measurement delivered by `pulseIn(ECHO_PIN, HIGH, 30000)`:
`some t` is a pulse of `t` microseconds, `none` is a timeout (no echo
within the 30000 µs window). -/
abbrev RawEcho : Type := Option ℚ

/-- The value `pulseIn` hands back to the caller.  Modelled from the
external sensor interface (the Arduino primitive is not part of this
repository): `pulseIn` returns the sentinel `0` when no pulse arrives
within the timeout, which is the only reading of "returns a sentinel on
timeout" consistent with the worked example of the spec. -/
def pulseInResult (e : RawEcho) : ℚ := e.getD 0

/-- `readings[i] = duration * 0.0343 / 2` (line 65). -/
def echoToDistance (e : RawEcho) : ℚ := pulseInResult e * (343 / 10000) / 2

/-- One compare-swap of the bubble sort (lines 70-72):
`if (a > b) swap(a, b)`. -/
def cswap (p : ℚ × ℚ) : ℚ × ℚ := if p.1 > p.2 then (p.2, p.1) else p

/-- The final clamp of `getDistance` (lines 76-78): any value `<= 0` or
`> MAX_DETECTION_LIMIT` is replaced by `MAX_DETECTION_LIMIT`. -/
def clampSample (d : ℚ) : ℚ :=
  if d ≤ 0 ∨ d > MAX_DETECTION_LIMIT then MAX_DETECTION_LIMIT else d

/-- `getDistance` (lines 54-80): convert the three raw echoes to distances
(`readings[0..2]`), run the three compare-swaps of the bubble sort, take
`readings[1]`, and clamp. -/
def getDistance (e0 e1 e2 : RawEcho) : ℚ :=
  let r0 := echoToDistance e0
  let r1 := echoToDistance e1
  let r2 := echoToDistance e2
  let s1 := cswap (r0, r1)
  let s2 := cswap (s1.2, r2)
  let s3 := cswap (s1.1, s2.1)
  clampSample s3.2

/-- The median of three rationals, stated independently of the sorting
network: the maximum of the pairwise minima. -/
def median3 (a b c : ℚ) : ℚ := max (min a b) (max (min a c) (min b c))

/-- Modelled from the spec: the claimed sampling rule in which every
timed-out reading is replaced by a very large distance (+infinity,
modelled as `⊤` in `WithTop ℚ`) before sorting, the median of the three
is taken, and the result is clamped exactly as in `getDistance` (a `⊤`
median exceeds `MAX_DETECTION_LIMIT`, so it clamps to it). -/
def specInfinitySample (e0 e1 e2 : RawEcho) : ℚ :=
  let v : RawEcho → WithTop ℚ := fun e =>
    match e with
    | none => ⊤
    | some t => ((t * (343 / 10000) / 2 : ℚ) : WithTop ℚ)
  let m : WithTop ℚ :=
    max (min (v e0) (v e1)) (max (min (v e0) (v e2)) (min (v e1) (v e2)))
  match m with
  | none => MAX_DETECTION_LIMIT
  | some d => clampSample d

/-- The duration (µs) whose converted distance is exactly `d` cm:
`duration * 0.0343 / 2 = d` iff `duration = d * 20000 / 343`. -/
def durationFor (d : ℚ) : ℚ := d * 20000 / 343

/-! ## Threshold adjustment (src/main.cpp lines 100-128,
`updateDetectionLimit`) -/

/-- The state read and written by `updateDetectionLimit`: the dynamic
detection range `detectionLimit`, the encoder accumulator `encoderPos`
(volatile, incremented by the ISR), and its consumed shadow
`lastEncoderPos`. -/
structure EncState where
  detectionLimit : ℚ
  encoderPos : ℤ
  lastEncoderPos : ℤ
  deriving Repr, DecidableEq

/-- `updateDetectionLimit` (lines 101-128): if the accumulator moved,
add `delta * RANGE_INCREMENT` to the detection limit; on underflow clamp
to `MIN_DETECTION_LIMIT` and roll the accumulator back to
`lastEncoderPos` (symmetrically at `MAX_DETECTION_LIMIT`); finally set
`lastEncoderPos = encoderPos`. -/
def updateDetectionLimit (s : EncState) : EncState :=
  if s.encoderPos ≠ s.lastEncoderPos then
    let delta : ℤ := s.encoderPos - s.lastEncoderPos
    let limit := s.detectionLimit + (delta : ℚ) * RANGE_INCREMENT
    let (limit, enc) :=
      if limit < MIN_DETECTION_LIMIT then (MIN_DETECTION_LIMIT, s.lastEncoderPos)
      else if limit > MAX_DETECTION_LIMIT then (MAX_DETECTION_LIMIT, s.lastEncoderPos)
      else (limit, s.encoderPos)
    { detectionLimit := limit, encoderPos := enc, lastEncoderPos := enc }
  else s

/-! ## Sweep scheduling (src/main.cpp lines 408-421) -/

/-- The sweep advance at the end of `loop` (lines 409-421): add or
subtract `SCAN_STEP`; clamp to the boundary on reaching or exceeding it
and flip the direction flag. -/
def advanceSweep (angle : ℤ) (forward : Bool) : ℤ × Bool :=
  if forward then
    let a := angle + SCAN_STEP
    if a ≥ 180 then (180, false) else (a, true)
  else
    let a := angle - SCAN_STEP
    if a ≤ 0 then (0, true) else (a, false)

/-- The sweep trajectory: the angle/direction pair before iteration `n`,
starting from the initial position (angle 0, moving forward) and
advancing once per (idle) iteration. -/
def sweepTraj : ℕ → ℤ × Bool
  | 0 => (0, true)
  | n + 1 => advanceSweep (sweepTraj n).1 (sweepTraj n).2

/-! ## Detection state machine (src/main.cpp lines 376-406) -/

/-- Display updates issued by the loop body. `objectFound` is the one-time
"Object Detected!" banner with distance and angle (lines 383-387);
`objectCleared` is the one-time `lcd.clear()` on leaving detection
(line 398); `scanSummary` is the continuously refreshed scan display
(lines 402-405); `rangeSet` and `rangeReset` come from the threshold
paths (lines 120-126 and 353-359). -/
inductive DisplayEvent where
  | objectFound (distance : ℚ) (angle : ℤ)
  | objectCleared
  | scanSummary (angle : ℤ) (limit distance : ℚ)
  | rangeSet (limit : ℚ)
  | rangeReset (limit : ℚ)
  deriving Repr, DecidableEq

/-- Result of one evaluation of the object-detection logic
(lines 377-406). `alertWrite = some b` records a `digitalWrite` of both
`LED_PIN` and `BUZZER_PIN` to level `b`; `none` means the outputs were
left untouched. `held = true` records the early `return` of the
detection branch (line 392), which skips the sweep advance. -/
structure DetectResult where
  isDetecting : Bool
  alertWrite : Option Bool
  events : List DisplayEvent
  held : Bool
  deriving Repr, DecidableEq

/-- The object-detection logic (lines 377-406) as a function of the
current detection flag, the sampled distance, the detection limit and
the current angle. -/
def detectStep (isDet : Bool) (dist limit : ℚ) (angle : ℤ) : DetectResult :=
  if dist ≤ limit then
    if !isDet then
      { isDetecting := true, alertWrite := some true,
        events := [.objectFound dist angle], held := true }
    else
      { isDetecting := true, alertWrite := none, events := [], held := true }
  else
    if isDet then
      { isDetecting := false, alertWrite := some false,
        events := [.objectCleared, .scanSummary angle limit dist], held := false }
    else
      { isDetecting := false, alertWrite := none,
        events := [.scanSummary angle limit dist], held := false }

/-! ## Global state, telemetry and the control loop
(src/main.cpp lines 39-51, 281-286, 343-421) -/

/-- The global mutable state of the sketch (lines 40-48), plus the alert
output latch (`LED_PIN`/`BUZZER_PIN` level, lines 314-315) and one ghost
variable `measAngle`: the angle at which `lastDistance` was measured.
`measAngle` has no counterpart in the code; it only records history for
specification purposes and never influences the dynamics. -/
structure RadarState where
  currentAngle : ℤ
  movingForward : Bool
  lastDistance : ℚ
  isDetecting : Bool
  detectionLimit : ℚ
  encoderPos : ℤ
  lastEncoderPos : ℤ
  alertOn : Bool
  measAngle : ℤ
  deriving Repr, DecidableEq

/-- The initial state after `setup()` (lines 40-44 initialisers; `setup`
writes the outputs low and commands angle 0 but changes none of these
variables). -/
def initState : RadarState :=
  { currentAngle := 0, movingForward := true, lastDistance := 0,
    isDetecting := false, detectionLimit := MIN_DETECTION_LIMIT,
    encoderPos := 0, lastEncoderPos := 0, alertOn := false, measAngle := 0 }

/-- The reply of the `/data` handler (lines 281-286): the telemetry
snapshot `{"angle": currentAngle, "distance": lastDistance,
"range": detectionLimit}`. -/
structure TelemetrySnapshot where
  angle : ℤ
  distance : ℚ
  range : ℚ
  deriving Repr, DecidableEq

/-- `handleData` (lines 281-286) as a pure read of the global state. -/
def handleData (s : RadarState) : TelemetrySnapshot :=
  { angle := s.currentAngle, distance := s.lastDistance,
    range := s.detectionLimit }

/-- The environment of one `loop` iteration: whether the encoder button
is held (read LOW on both debounce reads, lines 347-349), the net number
of clicks the encoder ISR delivered since the previous iteration (the
ISR may fire at any point; its net effect on the accumulator is modelled
as arriving at the start of the iteration), and the three raw echoes of
this iteration's `getDistance` call. -/
structure LoopInput where
  resetHeld : Bool
  clicks : ℤ
  echo0 : RawEcho
  echo1 : RawEcho
  echo2 : RawEcho

/-- The phases of one `loop` iteration, in source order.  `servoCommand`
carries the absolute angle written to the servo (line 368). -/
inductive Phase where
  | service
  | resetCheck
  | encoderUpdate
  | servoCommand (angle : ℤ)
  | sample
  | detect
  | driveOutputs
  | advance
  deriving Repr, DecidableEq

/-- The input-processing prefix of one `loop` iteration: delivery of the
ISR's net clicks to the volatile accumulator, the encoder-button reset
(lines 347-362), and `updateDetectionLimit()` (line 365).  None of these
touch the sweep position, the detection flag, the alert outputs or the
last sample. -/
def encPhase (s : RadarState) (inp : LoopInput) : RadarState :=
  let s0 := { s with encoderPos := s.encoderPos + inp.clicks }
  let s1 := if inp.resetHeld then
      { s0 with detectionLimit := MIN_DETECTION_LIMIT,
                encoderPos := 0, lastEncoderPos := 0 }
    else s0
  let e := updateDetectionLimit
    { detectionLimit := s1.detectionLimit, encoderPos := s1.encoderPos,
      lastEncoderPos := s1.lastEncoderPos }
  { s1 with detectionLimit := e.detectionLimit,
            encoderPos := e.encoderPos,
            lastEncoderPos := e.lastEncoderPos }

/-- The distance sampled in one iteration (line 372). -/
def sampleDist (inp : LoopInput) : ℚ :=
  getDistance inp.echo0 inp.echo1 inp.echo2

/-- One iteration of `loop` (lines 343-421).  Returns the next state and
the trace of phases executed, in order:
`server.handleClient()` (service, a pure read of the state); the
encoder-button reset check (lines 347-362); `updateDetectionLimit()`
(line 365); `radarServo.write(currentAngle)` (line 368); the
`getDistance` sample (line 372); the detection logic (lines 377-406),
whose edge actions drive the alert outputs; and the sweep advance
(lines 409-421), skipped when the detection branch returns early
(line 392). -/
def loopIter (s : RadarState) (inp : LoopInput) : RadarState × List Phase :=
  let s2 := encPhase s inp
  let dist := sampleDist inp
  let r := detectStep s2.isDetecting dist s2.detectionLimit s2.currentAngle
  let s4 := { s2 with lastDistance := dist, measAngle := s2.currentAngle,
                      isDetecting := r.isDetecting,
                      alertOn := r.alertWrite.getD s2.alertOn }
  let tracePrefix : List Phase :=
    [.service, .resetCheck, .encoderUpdate, .servoCommand s2.currentAngle,
     .sample, .detect]
  let outPhase : List Phase :=
    if r.alertWrite.isSome then [.driveOutputs] else []
  if r.held then
    (s4, tracePrefix ++ outPhase)
  else
    let af := advanceSweep s4.currentAngle s4.movingForward
    ({ s4 with currentAngle := af.1, movingForward := af.2 },
     tracePrefix ++ outPhase ++ [.advance])

/-- The state after running `loop` once per input, in order. -/
def runLoop (s : RadarState) : List LoopInput → RadarState
  | [] => s
  | inp :: rest => runLoop (loopIter s inp).1 rest

/-- The states the control loop can reach from `initState`, for an
arbitrary sequence of environments. -/
inductive Reachable : RadarState → Prop where
  | init : Reachable initState
  | step (s : RadarState) (inp : LoopInput) :
      Reachable s → Reachable (loopIter s inp).1

/-! ## Helper lemmas -/

/-- A compare-swap leaves an ordered pair alone. -/
theorem cswap_le {a b : ℚ} (h : a ≤ b) : cswap (a, b) = (a, b) := by
  simp [cswap, not_lt.mpr h]

/-- A compare-swap orders a (weakly) reversed pair. -/
theorem cswap_ge {a b : ℚ} (h : b ≤ a) : cswap (a, b) = (b, a) := by
  rcases lt_or_eq_of_le h with h' | h'
  · simp [cswap, h']
  · subst h'
    simp [cswap]

/-- The middle element produced by the three compare-swaps of
`getDistance` is the median of the three inputs. -/
theorem bubble_middle (r0 r1 r2 : ℚ) :
    (cswap ((cswap (r0, r1)).1, (cswap ((cswap (r0, r1)).2, r2)).1)).2 =
      median3 r0 r1 r2 := by
  rcases le_total r0 r1 with h01 | h01
  · rcases le_total r1 r2 with h12 | h12
    · simp only [cswap_le h01, cswap_le h12]
      simp only [median3, min_def, max_def]
      split_ifs <;> linarith
    · rcases le_total r0 r2 with h02 | h02
      · simp only [cswap_le h01, cswap_ge h12, cswap_le h02]
        simp only [median3, min_def, max_def]
        split_ifs <;> linarith
      · simp only [cswap_le h01, cswap_ge h12, cswap_ge h02]
        simp only [median3, min_def, max_def]
        split_ifs <;> linarith
  · rcases le_total r0 r2 with h02 | h02
    · simp only [cswap_ge h01, cswap_le h01, cswap_le h02]
      simp only [median3, min_def, max_def]
      split_ifs <;> linarith
    · rcases le_total r1 r2 with h12 | h12
      · simp only [cswap_ge h01, cswap_ge h02, cswap_le h12]
        simp only [median3, min_def, max_def]
        split_ifs <;> linarith
      · simp only [cswap_ge h01, cswap_ge h02, cswap_ge h12]
        simp only [median3, min_def, max_def]
        split_ifs <;> linarith

/-- `getDistance` is the clamped median of the three converted readings,
where a timed-out echo converts to distance `0`. -/
theorem getDistance_eq_clamped_median (e0 e1 e2 : RawEcho) :
    getDistance e0 e1 e2 =
      clampSample (median3 (echoToDistance e0) (echoToDistance e1)
        (echoToDistance e2)) := by
  simp only [getDistance]
  rw [bubble_middle]

/-- One sweep advance preserves "multiple of `SCAN_STEP` within
`[0, 180]`". -/
theorem advanceSweep_inv (a : ℤ) (f : Bool) (h5 : 5 ∣ a) (h0 : 0 ≤ a)
    (h180 : a ≤ 180) :
    5 ∣ (advanceSweep a f).1 ∧ 0 ≤ (advanceSweep a f).1 ∧
      (advanceSweep a f).1 ≤ 180 := by
  cases f <;> simp only [advanceSweep, SCAN_STEP] <;> split_ifs <;>
    simp <;> omega

/-- The detection branch holds the loop (returns early) exactly when it
leaves the machine detecting. -/
theorem detectStep_held (d : Bool) (dist lim : ℚ) (a : ℤ) :
    (detectStep d dist lim a).held = (detectStep d dist lim a).isDetecting := by
  unfold detectStep
  split_ifs <;> rfl

/-- After the detection branch, the flag records exactly the comparison
of the sampled distance with the limit. -/
theorem detectStep_isDetecting (d : Bool) (dist lim : ℚ) (a : ℤ) :
    (detectStep d dist lim a).isDetecting = decide (dist ≤ lim) := by
  unfold detectStep
  split_ifs with h <;> simp [h]

/-- The input-processing prefix leaves everything but the threshold and
the encoder fields unchanged. -/
theorem encPhase_frame (s : RadarState) (inp : LoopInput) :
    (encPhase s inp).currentAngle = s.currentAngle ∧
    (encPhase s inp).movingForward = s.movingForward ∧
    (encPhase s inp).isDetecting = s.isDetecting ∧
    (encPhase s inp).alertOn = s.alertOn ∧
    (encPhase s inp).lastDistance = s.lastDistance ∧
    (encPhase s inp).measAngle = s.measAngle := by
  unfold encPhase
  by_cases h : inp.resetHeld <;> simp [h]

/-- The flag at the end of an iteration records the comparison of this
iteration's sample with the (post-encoder) threshold. -/
theorem loopIter_isDetecting (s : RadarState) (inp : LoopInput) :
    (loopIter s inp).1.isDetecting =
      decide (sampleDist inp ≤ (encPhase s inp).detectionLimit) := by
  simp only [loopIter]
  set r := detectStep (encPhase s inp).isDetecting (sampleDist inp)
    (encPhase s inp).detectionLimit (encPhase s inp).currentAngle with hr
  have hri : r.isDetecting =
      decide (sampleDist inp ≤ (encPhase s inp).detectionLimit) := by
    rw [hr]; exact detectStep_isDetecting _ _ _ _
  by_cases hh : r.held = true
  · rw [if_pos hh]; exact hri
  · rw [if_neg hh]; exact hri

/-- An iteration that ends detecting took the early return: the sweep
position and direction are untouched. -/
theorem loopIter_held_frame (s : RadarState) (inp : LoopInput)
    (h : (loopIter s inp).1.isDetecting = true) :
    (loopIter s inp).1.currentAngle = s.currentAngle ∧
    (loopIter s inp).1.movingForward = s.movingForward := by
  obtain ⟨ha, hf, -, -, -, -⟩ := encPhase_frame s inp
  revert h
  simp only [loopIter]
  set r := detectStep (encPhase s inp).isDetecting (sampleDist inp)
    (encPhase s inp).detectionLimit (encPhase s inp).currentAngle with hr
  have hheld : r.held = r.isDetecting := by
    rw [hr]; exact detectStep_held _ _ _ _
  by_cases hh : r.held = true
  · rw [if_pos hh]
    intro _
    exact ⟨ha, hf⟩
  · rw [if_neg hh]
    intro h
    have h' : r.isDetecting = true := h
    rw [hheld] at hh
    exact absurd h' hh

/-- An iteration that ends idle ran the sweep advance on the position it
sampled at. -/
theorem loopIter_advance (s : RadarState) (inp : LoopInput)
    (h : (loopIter s inp).1.isDetecting = false) :
    (loopIter s inp).1.currentAngle =
      (advanceSweep s.currentAngle s.movingForward).1 ∧
    (loopIter s inp).1.movingForward =
      (advanceSweep s.currentAngle s.movingForward).2 := by
  obtain ⟨ha, hf, -, -, -, -⟩ := encPhase_frame s inp
  revert h
  simp only [loopIter]
  set r := detectStep (encPhase s inp).isDetecting (sampleDist inp)
    (encPhase s inp).detectionLimit (encPhase s inp).currentAngle with hr
  have hheld : r.held = r.isDetecting := by
    rw [hr]; exact detectStep_held _ _ _ _
  by_cases hh : r.held = true
  · rw [if_pos hh]
    intro h
    have h' : r.isDetecting = false := h
    rw [hheld, h'] at hh
    exact absurd hh (by simp)
  · rw [if_neg hh]
    intro _
    rw [ha, hf]
    exact ⟨rfl, rfl⟩

/-- The ghost measurement angle after an iteration is the angle the
iteration sampled at, which is the pre-iteration sweep angle. -/
theorem loopIter_measAngle (s : RadarState) (inp : LoopInput) :
    (loopIter s inp).1.measAngle = s.currentAngle := by
  obtain ⟨ha, -, -, -, -, -⟩ := encPhase_frame s inp
  simp only [loopIter]
  set r := detectStep (encPhase s inp).isDetecting (sampleDist inp)
    (encPhase s inp).detectionLimit (encPhase s inp).currentAngle with hr
  by_cases hh : r.held = true
  · rw [if_pos hh]
    exact ha
  · rw [if_neg hh]
    exact ha

/-- The phase trace of one iteration: the six-phase prefix through the
detection evaluation always runs, the alert outputs are driven exactly
on transition edges, and the advance phase runs exactly in iterations
that end idle. -/
theorem loopIter_trace (s : RadarState) (inp : LoopInput) :
    ∃ out adv : List Phase,
      (loopIter s inp).2 =
        [.service, .resetCheck, .encoderUpdate, .servoCommand s.currentAngle,
         .sample, .detect] ++ out ++ adv ∧
      (out = [] ∨ out = [.driveOutputs]) ∧
      (adv = [] ∨ adv = [.advance]) ∧
      (adv = [] ↔ (loopIter s inp).1.isDetecting = true) := by
  obtain ⟨ha, -, -, -, -, -⟩ := encPhase_frame s inp
  simp only [loopIter]
  set r := detectStep (encPhase s inp).isDetecting (sampleDist inp)
    (encPhase s inp).detectionLimit (encPhase s inp).currentAngle with hr
  have hheld : r.held = r.isDetecting := by
    rw [hr]; exact detectStep_held _ _ _ _
  refine ⟨if r.alertWrite.isSome then [.driveOutputs] else [],
          if r.held then [] else [.advance], ?_, ?_, ?_, ?_⟩
  · by_cases hh : r.held = true
    · rw [if_pos hh, if_pos hh, ha]
      simp
    · rw [if_neg hh, if_neg hh, ha]
  · by_cases ho : r.alertWrite.isSome = true
    · rw [if_pos ho]; right; rfl
    · rw [if_neg ho]; left; rfl
  · by_cases hh : r.held = true
    · rw [if_pos hh]; left; rfl
    · rw [if_neg hh]; right; rfl
  · by_cases hh : r.held = true
    · have hdet : r.isDetecting = true := by rw [← hheld]; exact hh
      rw [if_pos hh, if_pos hh]
      exact ⟨fun _ => hdet, fun _ => rfl⟩
    · rw [if_neg hh, if_neg hh]
      constructor
      · intro hcontra
        exact absurd hcontra (by simp)
      · intro hdet
        have hdet' : r.isDetecting = true := hdet
        rw [← hheld] at hdet'
        exact absurd hdet' hh

/-- All-timeout sampling degrades to the maximum range. -/
theorem getDistance_all_timeout :
    getDistance none none none = MAX_DETECTION_LIMIT := by
  simp only [getDistance, echoToDistance, pulseInResult, cswap, Option.getD]
  norm_num [clampSample, MAX_DETECTION_LIMIT]

/-- The spec's worked example evaluated on the code: one timeout plus raw
distances 12 cm and 11.5 cm filter to 11.5 cm. -/
theorem getDistance_example :
    getDistance none (some (durationFor 12)) (some (durationFor (23/2))) =
      23 / 2 := by
  simp only [getDistance, echoToDistance, pulseInResult, durationFor, cswap,
    Option.getD]
  norm_num [clampSample, MAX_DETECTION_LIMIT]

/-! ## Claims -/

/-- C1, counterexample: on the raw triple {timeout, 12.0, 11.5} the code
returns 11.5, but the claimed rule — replace the timed-out reading by a
very large distance (+infinity) before sorting, take the median, clamp —
returns 12.0.  The claim's general rule and its own worked example
cannot both hold, and the code follows the example: a timeout becomes
the sentinel 0, which sorts first, so the median of a one-timeout triple
is the smaller of the two valid readings. -/
theorem C1_counterexample :
    getDistance none (some (durationFor 12)) (some (durationFor (23/2))) =
      23 / 2 ∧
    specInfinitySample none (some (durationFor 12))
      (some (durationFor (23/2))) = 12 ∧
    (23 / 2 : ℚ) ≠ 12 := by
  refine ⟨getDistance_example, ?_, by norm_num⟩
  simp only [specInfinitySample, durationFor, min_top_left]
  rw [show ((12 : ℚ) * 20000 / 343 * (343 / 10000) / 2 : ℚ) = 12 by norm_num,
      show ((23/2 : ℚ) * 20000 / 343 * (343 / 10000) / 2 : ℚ) = 23/2 by norm_num]
  rw [← WithTop.coe_min, ← WithTop.coe_max, ← WithTop.coe_max]
  show clampSample _ = 12
  norm_num [clampSample, MAX_DETECTION_LIMIT]

/-- C1, amended: `getDistance` returns the median of that call's three
raw readings after every timed-out reading is replaced by the zero
sentinel (hence a very SMALL distance) before sorting, with the final
result clamped so that any median `<= 0` or `> MAX_DETECTION_LIMIT`
becomes `MAX_DETECTION_LIMIT`; in particular, for the raw triple
{timeout, 12.0, 11.5} the filtered result is 11.5 (ridding the smaller
valid reading of the claimed +infinity treatment is exactly what the
worked example requires). -/
theorem C1_median_filter (e0 e1 e2 : RawEcho) :
    getDistance e0 e1 e2 =
      clampSample (median3 (echoToDistance e0) (echoToDistance e1)
        (echoToDistance e2)) ∧
    echoToDistance none = 0 ∧
    getDistance none (some (durationFor 12)) (some (durationFor (23/2))) =
      23 / 2 :=
  ⟨getDistance_eq_clamped_median e0 e1 e2, by norm_num [echoToDistance,
    pulseInResult, Option.getD], getDistance_example⟩

/-- C8: a telemetry request served before the first loop iteration has
sampled returns the well-defined default snapshot: angle 0,
distance 0.0, and range equal to the initial detection threshold
(`MIN_DETECTION_LIMIT` = 30 cm). -/
theorem C8_initial_snapshot :
    handleData initState =
      { angle := 0, distance := 0, range := MIN_DETECTION_LIMIT } ∧
    initState.detectionLimit = MIN_DETECTION_LIMIT ∧
    MIN_DETECTION_LIMIT = 30 :=
  ⟨rfl, rfl, rfl⟩

/-- C5: detection transitions and their side effects are edge-triggered
one-shots.  Idle -> Detecting fires exactly when the filtered distance
is at most the detection range while Idle, turning both alert outputs on
and emitting the one-time "object found" display update with distance
and angle; Detecting -> Idle fires exactly when the distance exceeds the
range while Detecting, turning the outputs off and emitting the
one-time "object cleared" update; iterations that remain in the same
state write no output and emit no one-time display action. -/
theorem C5_edge_triggered (isDet : Bool) (dist limit : ℚ) (angle : ℤ) :
    ((detectStep isDet dist limit angle).isDetecting =
      decide (dist ≤ limit)) ∧
    (isDet = false → dist ≤ limit →
      detectStep isDet dist limit angle =
        { isDetecting := true, alertWrite := some true,
          events := [.objectFound dist angle], held := true }) ∧
    (isDet = true → limit < dist →
      detectStep isDet dist limit angle =
        { isDetecting := false, alertWrite := some false,
          events := [.objectCleared, .scanSummary angle limit dist],
          held := false }) ∧
    (isDet = true → dist ≤ limit →
      detectStep isDet dist limit angle =
        { isDetecting := true, alertWrite := none, events := [],
          held := true }) ∧
    (isDet = false → limit < dist →
      detectStep isDet dist limit angle =
        { isDetecting := false, alertWrite := none,
          events := [.scanSummary angle limit dist], held := false }) := by
  refine ⟨detectStep_isDetecting _ _ _ _, ?_, ?_, ?_, ?_⟩
  · rintro rfl h
    simp [detectStep, h]
  · rintro rfl h
    simp [detectStep, not_le.mpr h]
  · rintro rfl h
    simp [detectStep, h]
  · rintro rfl h
    simp [detectStep, not_le.mpr h]

/-- C5, witness: distance 45 at range 50 while Idle transitions to
Detecting with both side effects; distance 55 while Detecting clears;
distance 45 while already Detecting does nothing. -/
theorem C5_edge_triggered_witness :
    detectStep false 45 50 0 =
      { isDetecting := true, alertWrite := some true,
        events := [.objectFound 45 0], held := true } ∧
    detectStep true 55 50 0 =
      { isDetecting := false, alertWrite := some false,
        events := [.objectCleared, .scanSummary 0 50 55], held := false } ∧
    detectStep true 45 50 0 =
      { isDetecting := true, alertWrite := none, events := [],
        held := true } :=
  ⟨(C5_edge_triggered false 45 50 0).2.1 rfl (by norm_num),
   (C5_edge_triggered true 55 50 0).2.2.1 rfl (by norm_num),
   (C5_edge_triggered true 45 50 0).2.2.2.1 rfl (by norm_num)⟩

/-- C6: applying the encoder delta.  A zero delta changes nothing; a
non-zero delta adds `delta * RANGE_INCREMENT`; a result below
`MIN_DETECTION_LIMIT` clamps to it and rolls the accumulator back to the
consumed shadow (symmetrically above `MAX_DETECTION_LIMIT`); the shadow
always ends equal to the (post-adjustment) accumulator; and from
threshold 30 with delta -2 the result clamps to 30, after which a
delta of +1 raises it to exactly 35, not 25. -/
theorem C6_threshold_delta (s : EncState) :
    (s.encoderPos = s.lastEncoderPos → updateDetectionLimit s = s) ∧
    (s.encoderPos ≠ s.lastEncoderPos →
      (s.detectionLimit +
            ((s.encoderPos - s.lastEncoderPos : ℤ) : ℚ) * RANGE_INCREMENT <
          MIN_DETECTION_LIMIT →
        updateDetectionLimit s =
          { detectionLimit := MIN_DETECTION_LIMIT,
            encoderPos := s.lastEncoderPos,
            lastEncoderPos := s.lastEncoderPos }) ∧
      (MAX_DETECTION_LIMIT <
          s.detectionLimit +
            ((s.encoderPos - s.lastEncoderPos : ℤ) : ℚ) * RANGE_INCREMENT →
        updateDetectionLimit s =
          { detectionLimit := MAX_DETECTION_LIMIT,
            encoderPos := s.lastEncoderPos,
            lastEncoderPos := s.lastEncoderPos }) ∧
      (MIN_DETECTION_LIMIT ≤
          s.detectionLimit +
            ((s.encoderPos - s.lastEncoderPos : ℤ) : ℚ) * RANGE_INCREMENT →
        s.detectionLimit +
            ((s.encoderPos - s.lastEncoderPos : ℤ) : ℚ) * RANGE_INCREMENT ≤
          MAX_DETECTION_LIMIT →
        updateDetectionLimit s =
          { detectionLimit := s.detectionLimit +
              ((s.encoderPos - s.lastEncoderPos : ℤ) : ℚ) * RANGE_INCREMENT,
            encoderPos := s.encoderPos,
            lastEncoderPos := s.encoderPos })) ∧
    ((updateDetectionLimit s).lastEncoderPos =
      (updateDetectionLimit s).encoderPos) ∧
    (updateDetectionLimit ⟨30, -2, 0⟩ = ⟨30, 0, 0⟩ ∧
     updateDetectionLimit ⟨30, 1, 0⟩ = ⟨35, 1, 1⟩) := by
  refine ⟨?_, ?_, ?_, ?_, ?_⟩
  · intro h
    simp [updateDetectionLimit, h]
  · intro hne
    refine ⟨?_, ?_, ?_⟩
    · intro hlt
      have hlt' : s.detectionLimit +
          ((s.encoderPos : ℚ) - (s.lastEncoderPos : ℚ)) * RANGE_INCREMENT <
          MIN_DETECTION_LIMIT := by
        push_cast at hlt
        exact hlt
      simp [updateDetectionLimit, hne, hlt']
    · intro hgt
      have hgt' : MAX_DETECTION_LIMIT < s.detectionLimit +
          ((s.encoderPos : ℚ) - (s.lastEncoderPos : ℚ)) * RANGE_INCREMENT := by
        push_cast at hgt
        exact hgt
      have hnlt : ¬ (s.detectionLimit +
          ((s.encoderPos : ℚ) - (s.lastEncoderPos : ℚ)) * RANGE_INCREMENT <
          MIN_DETECTION_LIMIT) := by
        rw [not_lt]
        have hc : MIN_DETECTION_LIMIT ≤ MAX_DETECTION_LIMIT := by
          norm_num [MIN_DETECTION_LIMIT, MAX_DETECTION_LIMIT]
        linarith
      simp [updateDetectionLimit, hne, hnlt, hgt']
    · intro hge hle
      have hge' : ¬ (s.detectionLimit +
          ((s.encoderPos : ℚ) - (s.lastEncoderPos : ℚ)) * RANGE_INCREMENT <
          MIN_DETECTION_LIMIT) := by
        rw [not_lt]
        push_cast at hge
        exact hge
      have hle' : ¬ (MAX_DETECTION_LIMIT < s.detectionLimit +
          ((s.encoderPos : ℚ) - (s.lastEncoderPos : ℚ)) * RANGE_INCREMENT) := by
        rw [not_lt]
        push_cast at hle
        exact hle
      push_cast
      simp [updateDetectionLimit, hne, hge', hle']
  · by_cases h : s.encoderPos = s.lastEncoderPos
    · simp [updateDetectionLimit, h]
    · simp only [updateDetectionLimit, if_pos h]
  · norm_num [updateDetectionLimit, MIN_DETECTION_LIMIT,
      MAX_DETECTION_LIMIT, RANGE_INCREMENT]
  · norm_num [updateDetectionLimit, MIN_DETECTION_LIMIT,
      MAX_DETECTION_LIMIT, RANGE_INCREMENT]

/-- C6, witness: a state with no pending delta is left untouched. -/
theorem C6_threshold_delta_witness :
    updateDetectionLimit
        { detectionLimit := 40, encoderPos := 3, lastEncoderPos := 3 } =
      { detectionLimit := 40, encoderPos := 3, lastEncoderPos := 3 } :=
  (C6_threshold_delta _).1 rfl

/-- C2, counterexample: with the detection threshold at its maximum
reachable value `MAX_DETECTION_LIMIT` = 400 cm — inside the claim's
range `[MIN_RANGE, MAX_RANGE]` — a control-loop iteration whose sensor
faults on all three readings (filtered distance = 400) DOES fire the
Idle -> Detecting transition and turns the alert outputs on, because the
code compares with `<=`. -/
theorem C2_counterexample :
    getDistance none none none = MAX_DETECTION_LIMIT ∧
    MIN_DETECTION_LIMIT ≤ (400 : ℚ) ∧ (400 : ℚ) ≤ MAX_DETECTION_LIMIT ∧
    (loopIter { initState with detectionLimit := 400 }
        { resetHeld := false, clicks := 0, echo0 := none, echo1 := none,
          echo2 := none }).1.isDetecting = true ∧
    (loopIter { initState with detectionLimit := 400 }
        { resetHeld := false, clicks := 0, echo0 := none, echo1 := none,
          echo2 := none }).1.alertOn = true := by
  refine ⟨getDistance_all_timeout,
    by norm_num [MIN_DETECTION_LIMIT],
    by norm_num [MAX_DETECTION_LIMIT], ?_, ?_⟩ <;>
  · simp only [loopIter, encPhase, updateDetectionLimit, sampleDist,
      getDistance, echoToDistance, pulseInResult, cswap, clampSample,
      detectStep, advanceSweep, initState, MIN_DETECTION_LIMIT,
      MAX_DETECTION_LIMIT, SCAN_STEP, Option.getD]
    norm_num

/-- C2, amended: a sensor fault (echo timeout or out-of-bounds reading)
is silently mapped to `MAX_DETECTION_LIMIT`, and for every detection
threshold in `[MIN_DETECTION_LIMIT, MAX_DETECTION_LIMIT)` — i.e.
strictly below the maximum — a detection evaluation of a faulted sample
while Idle fires no transition, writes no alert output and emits no
one-time display action; at threshold = `MAX_DETECTION_LIMIT` exactly,
the fault value is within range and does trigger detection
(see the counterexample). -/
theorem C2_fault_silent (limit : ℚ) (angle : ℤ)
    (_hmin : MIN_DETECTION_LIMIT ≤ limit)
    (hmax : limit < MAX_DETECTION_LIMIT) :
    getDistance none none none = MAX_DETECTION_LIMIT ∧
    detectStep false MAX_DETECTION_LIMIT limit angle =
      { isDetecting := false, alertWrite := none,
        events := [.scanSummary angle limit MAX_DETECTION_LIMIT],
        held := false } := by
  refine ⟨getDistance_all_timeout, ?_⟩
  simp [detectStep, not_le.mpr hmax]

/-- C2, witness: at the minimum threshold 30 cm a faulted sample is
treated as "nothing detected". -/
theorem C2_fault_silent_witness :
    getDistance none none none = MAX_DETECTION_LIMIT ∧
    detectStep false MAX_DETECTION_LIMIT 30 0 =
      { isDetecting := false, alertWrite := none,
        events := [.scanSummary 0 30 MAX_DETECTION_LIMIT],
        held := false } :=
  C2_fault_silent 30 0 (by norm_num [MIN_DETECTION_LIMIT])
    (by norm_num [MIN_DETECTION_LIMIT, MAX_DETECTION_LIMIT])

/-- C3: a single sweep advance adds the fixed step when moving forward
and subtracts it when moving backward, clamping exactly to the boundary
(0 or 180) on reaching or exceeding it and flipping the direction for
the next call only; starting at angle 0 moving forward with step 5, a
full forward-then-backward cycle of 72 advances produces exactly the
sequence 0,5,...,180,175,...,5 and returns to (0, forward), with each
boundary visited once per cycle, each interior multiple of 5 visited
exactly twice, and no value skipped or duplicated. -/
theorem C3_sweep_cycle (a : ℤ) (f : Bool) :
    (f = true → a + SCAN_STEP < 180 →
      advanceSweep a f = (a + SCAN_STEP, true)) ∧
    (f = true → 180 ≤ a + SCAN_STEP → advanceSweep a f = (180, false)) ∧
    (f = false → 0 < a - SCAN_STEP →
      advanceSweep a f = (a - SCAN_STEP, false)) ∧
    (f = false → a - SCAN_STEP ≤ 0 → advanceSweep a f = (0, true)) ∧
    ((List.range 73).map (fun n => (sweepTraj n).1) =
      (List.range 37).map (fun i => 5 * (i : ℤ)) ++
      (List.range 36).map (fun i => 175 - 5 * (i : ℤ))) ∧
    sweepTraj 72 = (0, true) ∧
    ((List.range 72).map (fun n => (sweepTraj n).1)).count 0 = 1 ∧
    ((List.range 72).map (fun n => (sweepTraj n).1)).count 180 = 1 ∧
    (∀ k ∈ Finset.Icc 1 35,
      ((List.range 72).map (fun n => (sweepTraj n).1)).count (5 * (k : ℤ)) =
        2) := by
  refine ⟨?_, ?_, ?_, ?_, by decide, by decide, by decide, by decide,
    by decide⟩
  · rintro rfl h
    simp [advanceSweep, not_le.mpr h]
  · rintro rfl h
    simp [advanceSweep, h]
  · rintro rfl h
    have h' : ¬ (a - SCAN_STEP ≤ 0) := not_le.mpr h
    simp [advanceSweep, h']
  · rintro rfl h
    simp [advanceSweep, h]

/-- C3, witness: from the initial position the first advance moves to
angle 5, and 72 advances complete one full cycle back to the start. -/
theorem C3_sweep_cycle_witness :
    advanceSweep 0 true = (0 + SCAN_STEP, true) ∧
    sweepTraj 72 = (0, true) :=
  ⟨(C3_sweep_cycle 0 true).1 rfl (by decide),
   (C3_sweep_cycle 0 true).2.2.2.2.2.1⟩

/-- C4: the sweep never advances while the detection machine is in the
Detecting state: over any run of consecutive iterations each of which
ends with the machine detecting (i.e. each evaluation found the
filtered distance at most the threshold), the sweep angle and direction
flag are unchanged. -/
theorem C4_sweep_frozen (s : RadarState) (inps : List LoopInput)
    (h : ∀ i : ℕ, i < inps.length →
      (runLoop s (List.take (i + 1) inps)).isDetecting = true) :
    (runLoop s inps).currentAngle = s.currentAngle ∧
    (runLoop s inps).movingForward = s.movingForward := by
  induction inps generalizing s with
  | nil => exact ⟨rfl, rfl⟩
  | cons inp rest ih =>
    have h0 : (loopIter s inp).1.isDetecting = true := by
      have := h 0 (by simp)
      simpa [runLoop] using this
    obtain ⟨ha, hf⟩ := loopIter_held_frame s inp h0
    have hrest := ih (loopIter s inp).1 ?_
    · have hrun : runLoop s (inp :: rest) = runLoop (loopIter s inp).1 rest :=
        rfl
      rw [hrun, hrest.1, hrest.2, ha, hf]
      exact ⟨rfl, rfl⟩
    · intro i hi
      have := h (i + 1) (by simpa using Nat.succ_lt_succ hi)
      simpa [runLoop] using this

/-- C4, witness: with the threshold raised to 400 cm, an all-timeout
iteration from the initial position detects, and the sweep stays at
angle 0 moving forward. -/
theorem C4_sweep_frozen_witness :
    (runLoop { initState with detectionLimit := 400 }
        [{ resetHeld := false, clicks := 0, echo0 := none, echo1 := none,
           echo2 := none }]).currentAngle =
      ({ initState with detectionLimit := 400 } : RadarState).currentAngle ∧
    (runLoop { initState with detectionLimit := 400 }
        [{ resetHeld := false, clicks := 0, echo0 := none, echo1 := none,
           echo2 := none }]).movingForward =
      ({ initState with detectionLimit := 400 } : RadarState).movingForward :=
  C4_sweep_frozen _ _ (by
    intro i hi
    simp only [List.length_cons, List.length_nil] at hi
    have hi0 : i = 0 := by omega
    subst hi0
    simp only [List.take, runLoop, loopIter, encPhase, updateDetectionLimit,
      sampleDist, getDistance, echoToDistance, pulseInResult, cswap,
      clampSample, detectStep, advanceSweep, initState, MIN_DETECTION_LIMIT,
      MAX_DETECTION_LIMIT, SCAN_STEP, Option.getD]
    norm_num)

/-- C7, counterexample: one idle iteration from the initial state
measures 400 cm at angle 0, then advances the sweep to angle 5 before
returning; the next `/data` reply therefore reports angle 5 together
with the distance measured at angle 0 — a mix of values from different
points of the sweep, so the reported angle is NOT the angle at which the
reported distance was measured. -/
theorem C7_counterexample :
    handleData (loopIter initState
        { resetHeld := false, clicks := 0, echo0 := none, echo1 := none,
          echo2 := none }).1 =
      { angle := 5, distance := 400, range := 30 } ∧
    (loopIter initState
        { resetHeld := false, clicks := 0, echo0 := none, echo1 := none,
          echo2 := none }).1.measAngle = 0 ∧
    (5 : ℤ) ≠ 0 := by
  refine ⟨?_, ?_, by decide⟩ <;>
  · simp only [handleData, loopIter, encPhase, updateDetectionLimit,
      sampleDist, getDistance, echoToDistance, pulseInResult, cswap,
      clampSample, detectStep, advanceSweep, initState, MIN_DETECTION_LIMIT,
      MAX_DETECTION_LIMIT, SCAN_STEP, Option.getD]
    norm_num

/-- C7, amended: every `/data` reply is a consistent read of the current
globals (angle, last filtered distance, current range), but the
reported angle equals the measurement angle of the reported distance
only while the machine is detecting (the sweep frozen); in every
reachable idle state the reported angle has already been advanced one
sweep step past the angle at which the distance was measured (or the
loop has not yet run and both are 0). -/
theorem C7_snapshot_angle (s : RadarState) (h : Reachable s) :
    ((handleData s).angle = s.currentAngle ∧
     (handleData s).distance = s.lastDistance ∧
     (handleData s).range = s.detectionLimit) ∧
    (s.isDetecting = true → s.currentAngle = s.measAngle) ∧
    (s.isDetecting = false → s.currentAngle = s.measAngle ∨
      ∃ f : Bool,
        (s.currentAngle, s.movingForward) = advanceSweep s.measAngle f) := by
  induction h with
  | init => exact ⟨⟨rfl, rfl, rfl⟩, fun _ => rfl, fun _ => Or.inl rfl⟩
  | step s inp _ _ =>
    refine ⟨⟨rfl, rfl, rfl⟩, ?_, ?_⟩
    · intro hd
      obtain ⟨ha, -⟩ := loopIter_held_frame s inp hd
      rw [ha, loopIter_measAngle]
    · intro hd
      obtain ⟨ha, hf⟩ := loopIter_advance s inp hd
      right
      refine ⟨s.movingForward, ?_⟩
      rw [ha, hf, loopIter_measAngle]

/-- C7, witness: the initial state is reachable and its snapshot is a
consistent read of the initial globals. -/
theorem C7_snapshot_angle_witness :
    (handleData initState).angle = initState.currentAngle ∧
    (handleData initState).distance = initState.lastDistance ∧
    (handleData initState).range = initState.detectionLimit :=
  (C7_snapshot_angle initState Reachable.init).1

/-- C9: every control-loop iteration performs its phases in the fixed
order service → reset check → encoder delta → sweep position command →
distance sample → detection evaluation → (drive outputs) → (advance
sweep): the six-phase prefix through detection evaluation runs in every
iteration — including iterations held in the Detecting state — the
outputs are driven only at the transition edge, the sweep advance runs
exactly in iterations that end idle, and the servo is commanded the
pre-iteration angle. -/
theorem C9_iteration_order (s : RadarState) (inp : LoopInput) :
    (∃ out adv : List Phase,
      (loopIter s inp).2 =
        [.service, .resetCheck, .encoderUpdate, .servoCommand s.currentAngle,
         .sample, .detect] ++ out ++ adv ∧
      (out = [] ∨ out = [.driveOutputs]) ∧
      (adv = [] ∨ adv = [.advance]) ∧
      (adv = [] ↔ (loopIter s inp).1.isDetecting = true)) ∧
    (loopIter s inp).2.take 6 =
      [.service, .resetCheck, .encoderUpdate, .servoCommand s.currentAngle,
       .sample, .detect] := by
  obtain ⟨out, adv, heq, hout, hadv, hiff⟩ := loopIter_trace s inp
  refine ⟨⟨out, adv, heq, hout, hadv, hiff⟩, ?_⟩
  rw [heq, List.append_assoc]
  rfl

/-- C10: in every reachable state the sweep angle is a multiple of the
scan step 5 lying in [0, 180], and every angle commanded to the servo
(the `servoCommand` phase) is the reachable state's current angle,
hence also a multiple of 5 in [0, 180]. -/
theorem C10_angle_invariant (s : RadarState) (h : Reachable s) :
    (5 ∣ s.currentAngle ∧ 0 ≤ s.currentAngle ∧ s.currentAngle ≤ 180) ∧
    (∀ (inp : LoopInput) (a : ℤ),
      Phase.servoCommand a ∈ (loopIter s inp).2 → a = s.currentAngle) := by
  have hinv : 5 ∣ s.currentAngle ∧ 0 ≤ s.currentAngle ∧
      s.currentAngle ≤ 180 := by
    induction h with
    | init => refine ⟨⟨0, rfl⟩, le_refl 0, by norm_num [initState]⟩
    | step s inp _ ih =>
      by_cases hd : (loopIter s inp).1.isDetecting = true
      · obtain ⟨ha, -⟩ := loopIter_held_frame s inp hd
        rw [ha]
        exact ih
      · have hd' : (loopIter s inp).1.isDetecting = false :=
          Bool.eq_false_iff.mpr hd
        obtain ⟨ha, -⟩ := loopIter_advance s inp hd'
        rw [ha]
        exact advanceSweep_inv s.currentAngle s.movingForward ih.1 ih.2.1
          ih.2.2
  refine ⟨hinv, ?_⟩
  intro inp a hmem
  obtain ⟨out, adv, heq, hout, hadv, -⟩ := loopIter_trace s inp
  rw [heq] at hmem
  simp only [List.mem_append, List.mem_cons,
    List.not_mem_nil, or_false] at hmem
  rcases hmem with (hpre | hout') | hadv'
  · rcases hpre with h1 | h1 | h1 | h1 | h1 | h1 <;> first
      | exact Phase.servoCommand.inj h1
      | exact absurd h1 (by simp)
  · rcases hout with rfl | rfl
    · exact absurd hout' (List.not_mem_nil _)
    · rcases List.mem_singleton.mp hout' with h1
      exact absurd h1 (by simp)
  · rcases hadv with rfl | rfl
    · exact absurd hadv' (List.not_mem_nil _)
    · rcases List.mem_singleton.mp hadv' with h1
      exact absurd h1 (by simp)

/-- C10, witness: the initial state is reachable and its angle 0 is a
multiple of 5 in [0, 180]. -/
theorem C10_angle_invariant_witness :
    5 ∣ initState.currentAngle ∧ 0 ≤ initState.currentAngle ∧
      initState.currentAngle ≤ 180 :=
  (C10_angle_invariant initState Reachable.init).1

end Radar
